import Mathlib

/-!
Shallow embedding of the Farcaster-ID mini app (TypeScript sources:
src/unnamed/part_001, the App module, and src/src/components/Dashboard.tsx).

JavaScript numbers that hold counts are modelled as Int; optional or
possibly-undefined values as Option; async calls that may reject as Except
String; a Promise that resolves with Blob-or-null as Option Blob.  Console
output relevant to the claims is tracked as an explicit log list.
-/

namespace FarcasterID

/-- RecentCast record from src/unnamed/part_000 (the types module). -/
structure RecentCast where
  hash : String
  text : String
  timestamp : String
  likes : Int
  recasts : Int
deriving Repr, DecidableEq

/-- DashboardUser record from src/unnamed/part_000 (the types module).
The neynarScore field is a JS number used only for display; it is kept
abstract as an Int-valued option since no claim depends on its arithmetic. -/
structure DashboardUser where
  fid : Int
  username : String
  displayName : String
  avatarUrl : Option String := none
  primaryAddress : Option String := none
  followersCount : Option Int := none
  followingCount : Option Int := none
  castsCount : Option Int := none
  reactionsCount : Option Int := none
  location : Option String := none
  bio : Option String := none
  neynarScore : Option Int := none
  dateOfBirth : Option String := none
deriving Repr, DecidableEq

/-! ## Image pipeline (generatePngBlob, part_001 lines 19-73) -/

/-- Opaque PNG blob value; only identity matters to the pipeline. -/
structure Blob where
  id : Nat
deriving Repr, DecidableEq

/-- Canvas produced by html2canvas; canvas.toBlob may deliver null,
so its PNG conversion is an Option Blob. -/
structure Canvas where
  toBlobPng : Option Blob
deriving Repr, DecidableEq

/-- Console output entries tracked by the embedding. -/
inductive LogEntry where
  | warn (msg : String)
  | error (msg : String)
deriving Repr, DecidableEq

/-- Environment giving the outcome of each rasterization library call on the
captured element.  The main html2canvas call (scale 2, no fixed size) and the
fallback html2canvas call (fixed 424x695) use different options, so each has
its own outcome.  htmlToImage.toBlob resolves with Blob-or-null;
domtoimage.toBlob resolves with a Blob.  An Except.error is a rejected
promise. -/
structure RasterEnv where
  html2canvasResult : Except String Canvas
  html2canvasFallbackResult : Except String Canvas
  htmlToImageResult : Except String (Option Blob)
  domToImageResult : Except String Blob
deriving Repr

/-- PNG_METHOD constant from part_001 line 21. -/
def PNG_METHOD : String := "html2canvas"

/-- console.warn message of the default branch of the switch in
generatePngBlob. -/
def pngWarnUnknown (method : String) : LogEntry :=
  .warn ("Unknown PNG method: " ++ method ++ ", falling back to html2canvas")

/-- console.error message of the catch clause of generatePngBlob. -/
def pngErrorLog (method : String) (e : String) : LogEntry :=
  .error ("Error generating PNG with " ++ method ++ ": " ++ e)

/-- Body of the try block of generatePngBlob: the switch on PNG_METHOD
(part_001 lines 26-68), before the catch clause.  Returns the pending result
of the selected library pipeline together with console output. -/
def generatePngBlobTry (method : String) (env : RasterEnv) :
    Except String (Option Blob) × List LogEntry :=
  if method = "html2canvas" then
    (env.html2canvasResult.map Canvas.toBlobPng, [])
  else if method = "html-to-image" then
    (env.htmlToImageResult, [])
  else if method = "dom-to-image" then
    (env.domToImageResult.map some, [])
  else
    (env.html2canvasFallbackResult.map Canvas.toBlobPng, [pngWarnUnknown method])

/-- generatePngBlob with its catch clause (part_001 lines 24-73): a rejected
library call is caught, logged with console.error, and turned into null. -/
def generatePngBlobRun (method : String) (env : RasterEnv) :
    Option Blob × List LogEntry :=
  match generatePngBlobTry method env with
  | (Except.ok r, logs) => (r, logs)
  | (Except.error e, logs) => (none, logs ++ [pngErrorLog method e])

/-- Value returned by generatePngBlob to its caller. -/
def generatePngBlob (method : String) (env : RasterEnv) : Option Blob :=
  (generatePngBlobRun method env).1

/-! ## Cloudinary upload (uploadToCloudinary, part_001 lines 76-133) -/

/-- Cloudinary environment configuration (part_001 lines 16-17); each value
is undefined when the corresponding environment variable is missing. -/
structure CloudinaryConfig where
  cloudName : Option String
  uploadPreset : Option String
deriving Repr, DecidableEq

/-- Parsed Cloudinary upload HTTP response: the ok flag, the HTTP status,
the secure_url field of the JSON body, and the raw body text read on the
error path. -/
structure UploadResponse where
  ok : Bool
  status : Nat
  secure_url : String
  bodyText : String
deriving Repr, DecidableEq

/-- Environment of one uploadToCloudinary invocation: the configuration, the
result of querying the given element for the .fc-idcard card element, the
rasterization outcomes for that card element, the FileReader base64
conversion outcome (Except.error is the onerror rejection), and the outcome
of the fetch to the Cloudinary upload endpoint (Except.error is a network
failure). -/
structure UploadEnv where
  config : CloudinaryConfig
  cardQueryResult : Option Unit
  rasterEnv : RasterEnv
  fileReadResult : Except String String
  fetchResult : Except String UploadResponse
deriving Repr

/-- uploadToCloudinary (part_001 lines 76-133), instrumented with the number
of Cloudinary upload HTTP requests issued.  Every failure path - missing
configuration, missing card element, null blob, rejected base64 conversion,
rejected fetch, non-ok response - yields null; only an ok response yields
the secure_url. -/
def uploadToCloudinaryRun (env : UploadEnv) : Option String × Nat :=
  if env.config.cloudName = none ∨ env.config.uploadPreset = none then
    -- console.warn: Cloudinary configuration missing
    (none, 0)
  else
    match env.cardQueryResult with
    | none => (none, 0)  -- console.warn: Card element not found
    | some _ =>
      match generatePngBlob PNG_METHOD env.rasterEnv with
      | none => (none, 0)
      | some _blob =>
        match env.fileReadResult with
        | Except.error _ => (none, 0)  -- rejection lands in the outer catch
        | Except.ok _base64Data =>
          -- the fetch to api.cloudinary.com is issued exactly once here
          match env.fetchResult with
          | Except.error _ => (none, 1)  -- caught by the outer catch
          | Except.ok resp =>
            if resp.ok then (some resp.secure_url, 1)
            else (none, 1)  -- console.error with status and body text

/-- Value returned by uploadToCloudinary to its caller. -/
def uploadToCloudinary (env : UploadEnv) : Option String :=
  (uploadToCloudinaryRun env).1

/-! ## Neynar casts normalization (loadNeynarData, part_001 lines 214-261) -/

/-- Possible reaction sub-object of a cast in the casts API response; every
field may be absent. -/
structure ReactionsResp where
  likes_count : Option Int := none
  likes : Option Int := none
  recasts_count : Option Int := none
  recasts : Option Int := none
deriving Repr, DecidableEq

/-- Raw cast object of the casts API response, with every reaction-count
field name the code probes for. -/
structure CastResp where
  hash : String
  text : Option String := none
  timestamp : String
  reactions : Option ReactionsResp := none
  like_count : Option Int := none
  likes : Option Int := none
  recast_count : Option Int := none
  recasts : Option Int := none
deriving Repr, DecidableEq

/-- Result object of the casts API response. -/
structure CastsResult where
  casts : Option (List CastResp) := none
  total : Option Int := none
deriving Repr, DecidableEq

/-- Top-level casts API response. -/
structure CastsApiResponse where
  result : Option CastsResult := none
deriving Repr, DecidableEq

/-- Likes normalization chain of loadNeynarData (part_001 lines 228-232):
c.reactions?.likes_count ?? c.reactions?.likes ?? c.like_count ?? c.likes
?? 0. -/
def castLikesOf (c : CastResp) : Int :=
  ((c.reactions.bind ReactionsResp.likes_count).orElse fun _ =>
    (c.reactions.bind ReactionsResp.likes).orElse fun _ =>
      c.like_count.orElse fun _ => c.likes).getD 0

/-- Recasts normalization chain of loadNeynarData (part_001 lines 233-237):
c.reactions?.recasts_count ?? c.reactions?.recasts ?? c.recast_count ??
c.recasts ?? 0. -/
def castRecastsOf (c : CastResp) : Int :=
  ((c.reactions.bind ReactionsResp.recasts_count).orElse fun _ =>
    (c.reactions.bind ReactionsResp.recasts).orElse fun _ =>
      c.recast_count.orElse fun _ => c.recasts).getD 0

/-- Mapping of one raw cast to a RecentCast (part_001 lines 239-245). -/
def processCast (c : CastResp) : RecentCast :=
  { hash := c.hash
    text := c.text.getD ""
    timestamp := c.timestamp
    likes := castLikesOf c
    recasts := castRecastsOf c }

/-- List of raw casts of a response: castsData.result?.casts, with the
trailing ?? [] of the map expression. -/
def responseCasts (resp : CastsApiResponse) : List CastResp :=
  ((resp.result.bind CastsResult.casts).getD [])

/-- Processed cast list of loadNeynarData (part_001 lines 225-246):
castsData.result?.casts?.map(...) ?? []. -/
def processCasts (resp : CastsApiResponse) : List RecentCast :=
  (responseCasts resp).map processCast

/-- setUser update of loadNeynarData after a successful casts fetch
(part_001 lines 252-260).  The JS (cast.likes || 0) is the identity on
integer likes, since x || 0 returns x unless x is falsy, and the falsy
integer is 0 itself. -/
def updateUserAfterCasts (resp : CastsApiResponse) (prev : Option DashboardUser) :
    Option DashboardUser :=
  match prev with
  | none => none
  | some u =>
    let casts := processCasts resp
    let totalReactions :=
      casts.foldl (fun sum cast => sum + cast.likes + cast.recasts) 0
    some { u with
      castsCount :=
        ((resp.result.bind CastsResult.total).orElse fun _ =>
          u.castsCount).orElse fun _ => some (casts.length : Int)
      reactionsCount := some totalReactions }

/-! ## Dashboard component (src/src/components/Dashboard.tsx) -/

/-- formatAddress (Dashboard.tsx lines 23-26).  JS !address is true for
undefined and for the empty string; slice(0, 6) is take 6 and slice(-4) is
drop (length - 4). -/
def formatAddress (address : Option String) : String :=
  match address with
  | none => "Not connected"
  | some a =>
    if a = "" then "Not connected"
    else a.take 6 ++ "..." ++ a.drop (a.length - 4)

/-- backgroundOptions list (Dashboard.tsx lines 47-54). -/
def backgroundOptions : List String :=
  [ "linear-gradient(135deg, #667eea 0%, #764ba2 100%)"
  , "linear-gradient(135deg, #f093fb 0%, #f5576c 100%)"
  , "linear-gradient(135deg, #4facfe 0%, #00f2fe 100%)"
  , "linear-gradient(135deg, #43e97b 0%, #38f9d7 100%)"
  , "linear-gradient(135deg, #fa709a 0%, #fee140 100%)"
  , "#020617" ]

/-- changeCardBackground (Dashboard.tsx lines 111-115).  JS indexOf yields
-1 for a background not in the list, and (-1 + 1) % 6 = 0, so an unknown
background advances to the first option. -/
def changeCardBackground (bg : String) : String :=
  let nextIndex :=
    match backgroundOptions.indexOf? bg with
    | some currentIndex => (currentIndex + 1) % backgroundOptions.length
    | none => 0
  backgroundOptions.getD nextIndex ""

/-- Rendered state of the Recent Activity list (Dashboard.tsx lines
426-480): a single loading item, one item per cast keyed by its hash, or
the two fixed placeholder items. -/
inductive ActivityView where
  | loadingItem
  | castItems (keys : List String)
  | placeholderItems
deriving Repr, DecidableEq

/-- Recent Activity render decision (Dashboard.tsx lines 36-37 and
426-480): isLoadingCasts is recentCasts === undefined, hasRealActivity is
recentCasts && recentCasts.length > 0. -/
def recentActivityView (recentCasts : Option (List RecentCast)) : ActivityView :=
  let isLoadingCasts := recentCasts.isNone
  let hasRealActivity := decide (0 < (recentCasts.getD []).length)
  if isLoadingCasts then ActivityView.loadingItem
  else if hasRealActivity then
    ActivityView.castItems ((recentCasts.getD []).map RecentCast.hash)
  else ActivityView.placeholderItems

/-- Number of activity items each view renders: one loading item, one item
per cast, or the two placeholders. -/
def activityItemCount : ActivityView → Nat
  | ActivityView.loadingItem => 1
  | ActivityView.castItems keys => keys.length
  | ActivityView.placeholderItems => 2

/-- Disabled attribute of the share button (Dashboard.tsx line 491):
disabled={sharing}. -/
def shareButtonDisabled (sharing : Bool) : Bool := sharing

/-! ## handleShare (part_001 lines 367-450) -/

/-- MINIAPP_URL default (part_001 lines 10-11). -/
def MINIAPP_URL : String := "https://farcaster-id-one.vercel.app"

/-- App component state touched by handleShare. -/
structure AppState where
  user : Option DashboardUser
  recentCasts : Option (List RecentCast)
  sharing : Bool
deriving Repr

/-- Externally visible actions of one handleShare run.  The cast text
(string templating over the user, presentation only) is abstracted away;
composeCast carries the embeds list the code builds. -/
inductive ShareEffect where
  | uploadAttempt
  | composeCast (embeds : List String)
  | alertSuccess
  | alertFailure
deriving Repr, DecidableEq

/-- Environment of one handleShare run: whether cardRef.current is
non-null, the upload environment for this run, and whether
sdk.actions.composeCast resolves. -/
structure ShareEnv where
  cardRefPresent : Bool
  uploadEnv : UploadEnv
  composeSucceeds : Bool
deriving Repr

/-- handleShare (part_001 lines 367-450).  When sharing is already true the
function returns at once with no effect; otherwise it sets sharing, tries
the Cloudinary upload to enrich the embeds, composes the cast, alerts, and
the finally clause clears sharing. -/
def handleShare (env : ShareEnv) (s : AppState) : AppState × List ShareEffect :=
  if s.sharing then (s, [])
  else
    let uploadStep : List String × List ShareEffect :=
      if env.cardRefPresent then
        match uploadToCloudinary env.uploadEnv with
        | some url =>
          (match s.user with
           | some u => [url, MINIAPP_URL, "@" ++ u.username]
           | none => [url, MINIAPP_URL],
           [ShareEffect.uploadAttempt])
        | none => ([MINIAPP_URL], [ShareEffect.uploadAttempt])
      else ([MINIAPP_URL], [])
    let composeAndAlert : List ShareEffect :=
      if env.composeSucceeds then
        [ShareEffect.composeCast uploadStep.1, ShareEffect.alertSuccess]
      else
        [ShareEffect.composeCast uploadStep.1, ShareEffect.alertFailure]
    ({ s with sharing := false }, uploadStep.2 ++ composeAndAlert)

/-! ## Concrete values used by the witness theorems -/

/-- Concrete blob for witness environments. -/
def blobA : Blob := ⟨1⟩

/-- Concrete canvas whose PNG conversion yields blobA. -/
def canvasA : Canvas := ⟨some blobA⟩

/-- Rasterization environment in which every library call succeeds. -/
def rasterEnvOk : RasterEnv :=
  { html2canvasResult := Except.ok canvasA
    html2canvasFallbackResult := Except.ok canvasA
    htmlToImageResult := Except.ok (some blobA)
    domToImageResult := Except.ok blobA }

/-- Rasterization environment in which every library call rejects. -/
def rasterEnvBad : RasterEnv :=
  { html2canvasResult := Except.error "boom"
    html2canvasFallbackResult := Except.error "boom"
    htmlToImageResult := Except.error "boom"
    domToImageResult := Except.error "boom" }

/-- Cloudinary response with ok set to false. -/
def responseNotOk : UploadResponse :=
  { ok := false, status := 400, secure_url := "", bodyText := "bad request" }

/-- Upload environment where everything succeeds up to the HTTP request,
whose response is not ok. -/
def uploadEnvNotOk : UploadEnv :=
  { config := { cloudName := some "demo", uploadPreset := some "unsigned" }
    cardQueryResult := some ()
    rasterEnv := rasterEnvOk
    fileReadResult := Except.ok "data:image/png;base64,AAAA"
    fetchResult := Except.ok responseNotOk }

/-- Share environment for the handleShare witness. -/
def shareEnvIdle : ShareEnv :=
  { cardRefPresent := true, uploadEnv := uploadEnvNotOk, composeSucceeds := true }

/-- App state with a share already in progress. -/
def appStateSharing : AppState :=
  { user := none, recentCasts := none, sharing := true }

/-! ## Helper lemmas -/

/-- Chain of JS nullish-coalescing operators as a first-defined search over
the candidate list. -/
lemma orElse_chain_eq_findSome (a b c d : Option Int) :
    (a.orElse fun _ => b.orElse fun _ => c.orElse fun _ => d) =
      [a, b, c, d].findSome? id := by
  cases a <;> cases b <;> cases c <;> cases d <;> rfl

/-- Likes normalization as a first-defined search over its candidates. -/
lemma castLikesOf_eq_findSome (c : CastResp) :
    castLikesOf c =
      (([c.reactions.bind ReactionsResp.likes_count,
         c.reactions.bind ReactionsResp.likes,
         c.like_count, c.likes].findSome? id).getD 0) := by
  unfold castLikesOf
  rw [orElse_chain_eq_findSome]

/-- Recasts normalization as a first-defined search over its candidates. -/
lemma castRecastsOf_eq_findSome (c : CastResp) :
    castRecastsOf c =
      (([c.reactions.bind ReactionsResp.recasts_count,
         c.reactions.bind ReactionsResp.recasts,
         c.recast_count, c.recasts].findSome? id).getD 0) := by
  unfold castRecastsOf
  rw [orElse_chain_eq_findSome]

/-- Reduce-style reactions total as a sum over the mapped cast list. -/
lemma foldl_reactions_eq_sum (l : List RecentCast) (a : Int) :
    l.foldl (fun sum cast => sum + cast.likes + cast.recasts) a =
      a + ((l.map fun c => c.likes + c.recasts).sum) := by
  induction l generalizing a with
  | nil => simp
  | cons x xs ih =>
    simp only [List.foldl_cons, List.map_cons, List.sum_cons, ih]
    ring

/-! ## Theorems for the claims -/

/-- C1: uploadToCloudinary returns the Cloudinary secure_url exactly when
every stage of the pipeline succeeds in order - configuration present, the
.fc-idcard card element found, a non-null blob, a successful base64
conversion, and an ok upload response; any failing stage yields null, and
the function never raises since its result type is an option. -/
theorem uploadToCloudinary_ok_iff (env : UploadEnv) (url : String) :
    uploadToCloudinary env = some url ↔
      env.config.cloudName.isSome ∧ env.config.uploadPreset.isSome ∧
      env.cardQueryResult.isSome ∧
      (generatePngBlob PNG_METHOD env.rasterEnv).isSome ∧
      (∃ d, env.fileReadResult = Except.ok d) ∧
      (∃ r, env.fetchResult = Except.ok r ∧ r.ok = true ∧ url = r.secure_url) := by
  unfold uploadToCloudinary uploadToCloudinaryRun
  rcases hcn : env.config.cloudName with _ | cn <;>
  rcases hup : env.config.uploadPreset with _ | up <;>
  rcases hcard : env.cardQueryResult with _ | card <;>
  rcases hblob : generatePngBlob PNG_METHOD env.rasterEnv with _ | blob <;>
  rcases hfile : env.fileReadResult with e | d <;>
  rcases hfetch : env.fetchResult with e2 | resp <;>
  simp [hcn, hup, hcard, hblob, hfile, hfetch, apply_ite] <;>
  by_cases hok : resp.ok <;>
  simp [hok] <;>
  tauto

/-- C2: generatePngBlob dispatches on the PNG_METHOD value: html2canvas
rasterizes with the main html2canvas options and converts the canvas to a
PNG blob, html-to-image calls htmlToImage.toBlob, dom-to-image calls
domtoimage.toBlob, and any other value logs a warning and falls back to the
html2canvas path. -/
theorem generatePngBlob_dispatch (env : RasterEnv) (m : String)
    (h1 : m ≠ "html2canvas") (h2 : m ≠ "html-to-image") (h3 : m ≠ "dom-to-image") :
    (∀ c, env.html2canvasResult = Except.ok c →
      generatePngBlob "html2canvas" env = c.toBlobPng) ∧
    (∀ b, env.htmlToImageResult = Except.ok b →
      generatePngBlob "html-to-image" env = b) ∧
    (∀ b, env.domToImageResult = Except.ok b →
      generatePngBlob "dom-to-image" env = some b) ∧
    (pngWarnUnknown m ∈ (generatePngBlobRun m env).2 ∧
      ∀ c, env.html2canvasFallbackResult = Except.ok c →
        generatePngBlob m env = c.toBlobPng) := by
  refine ⟨?_, ?_, ?_, ?_, ?_⟩
  · intro c hc
    simp [generatePngBlob, generatePngBlobRun, generatePngBlobTry, Except.map, hc]
  · intro b hb
    simp [generatePngBlob, generatePngBlobRun, generatePngBlobTry, Except.map, hb]
  · intro b hb
    simp [generatePngBlob, generatePngBlobRun, generatePngBlobTry, Except.map, hb]
  · rcases hf : env.html2canvasFallbackResult with e | c <;>
    simp [generatePngBlobRun, generatePngBlobTry, Except.map, h1, h2, h3, hf]
  · intro c hc
    simp [generatePngBlob, generatePngBlobRun, generatePngBlobTry, Except.map,
      h1, h2, h3, hc]

/-- Witness for C2 at a concrete environment and the unknown method value
bogus, which takes the fallback html2canvas path. -/
theorem generatePngBlob_dispatch_witness :
    generatePngBlob "bogus" rasterEnvOk = canvasA.toBlobPng :=
  (generatePngBlob_dispatch rasterEnvOk "bogus"
    (by decide) (by decide) (by decide)).2.2.2.2 canvasA rfl

/-- C3: every cast processed by loadNeynarData carries as likes the first
non-null among reactions.likes_count, reactions.likes, like_count and
likes, in that order, and as recasts the first non-null among
reactions.recasts_count, reactions.recasts, recast_count and recasts,
defaulting to 0 when all candidates are absent. -/
theorem loadNeynarData_reaction_normalization (resp : CastsApiResponse) :
    processCasts resp = (responseCasts resp).map (fun c =>
      { hash := c.hash
        text := c.text.getD ""
        timestamp := c.timestamp
        likes := (([c.reactions.bind ReactionsResp.likes_count,
                    c.reactions.bind ReactionsResp.likes,
                    c.like_count, c.likes].findSome? id).getD 0)
        recasts := (([c.reactions.bind ReactionsResp.recasts_count,
                      c.reactions.bind ReactionsResp.recasts,
                      c.recast_count, c.recasts].findSome? id).getD 0) }) := by
  unfold processCasts
  congr 1
  funext c
  simp only [processCast, castLikesOf_eq_findSome, castRecastsOf_eq_findSome]

/-- C4: an error raised inside the try block of generatePngBlob is caught,
logged through console.error, and turned into a null result, so the
function never propagates an exception. -/
theorem generatePngBlob_no_raise (m : String) (env : RasterEnv) (e : String)
    (he : (generatePngBlobTry m env).1 = Except.error e) :
    generatePngBlob m env = none ∧
    pngErrorLog m e ∈ (generatePngBlobRun m env).2 := by
  unfold generatePngBlob generatePngBlobRun
  rcases h : generatePngBlobTry m env with ⟨r, logs⟩
  rw [h] at he
  simp at he
  subst he
  simp

/-- Witness for C4 at an environment whose html2canvas call rejects. -/
theorem generatePngBlob_no_raise_witness :
    generatePngBlob "html2canvas" rasterEnvBad = none ∧
    pngErrorLog "html2canvas" "boom" ∈
      (generatePngBlobRun "html2canvas" rasterEnvBad).2 :=
  generatePngBlob_no_raise "html2canvas" rasterEnvBad "boom"
    (by simp [generatePngBlobTry, rasterEnvBad, Except.map])

/-- C5: the Cloudinary upload HTTP request is issued at most once per
uploadToCloudinary invocation, and a non-ok upload response makes the
function return null with no second attempt at any stage. -/
theorem uploadToCloudinary_no_retry :
    (∀ env : UploadEnv, (uploadToCloudinaryRun env).2 ≤ 1) ∧
    (∀ (env : UploadEnv) (r : UploadResponse),
      env.fetchResult = Except.ok r → r.ok = false →
      uploadToCloudinary env = none ∧ (uploadToCloudinaryRun env).2 ≤ 1) := by
  constructor
  · intro env
    unfold uploadToCloudinaryRun
    rcases env.config.cloudName with _ | cn <;>
    rcases env.config.uploadPreset with _ | up <;>
    rcases env.cardQueryResult with _ | card <;>
    rcases generatePngBlob PNG_METHOD env.rasterEnv with _ | blob <;>
    rcases env.fileReadResult with e | d <;>
    rcases env.fetchResult with e2 | resp <;>
    simp [apply_ite]
  · intro env r hfetch hok
    unfold uploadToCloudinary uploadToCloudinaryRun
    rcases env.config.cloudName with _ | cn <;>
    rcases env.config.uploadPreset with _ | up <;>
    rcases hcard : env.cardQueryResult with _ | card <;>
    rcases hblob : generatePngBlob PNG_METHOD env.rasterEnv with _ | blob <;>
    rcases hfile : env.fileReadResult with e | d <;>
    simp [hfetch, hcard, hblob, hfile, hok, apply_ite]

/-- Witness for C5 at an upload environment whose HTTP response is not
ok. -/
theorem uploadToCloudinary_no_retry_witness :
    (uploadToCloudinaryRun uploadEnvNotOk).2 ≤ 1 ∧
    uploadToCloudinary uploadEnvNotOk = none :=
  ⟨uploadToCloudinary_no_retry.1 uploadEnvNotOk,
   (uploadToCloudinary_no_retry.2 uploadEnvNotOk responseNotOk rfl rfl).1⟩

/-- C6: changeCardBackground advances any entry of the six-element
backgroundOptions list to the next entry, wrapping from the last back to
the first, so six successive applications restore the original
background. -/
theorem changeCardBackground_cycle :
    (∀ i : Fin backgroundOptions.length,
      changeCardBackground (backgroundOptions.getD i "") =
        backgroundOptions.getD (((i : Nat) + 1) % backgroundOptions.length) "") ∧
    (∀ bg ∈ backgroundOptions, changeCardBackground^[6] bg = bg) := by
  constructor
  · decide
  · decide

/-- Witness for C6 at the last list entry, which wraps to the first. -/
theorem changeCardBackground_cycle_witness :
    "#020617" ∈ backgroundOptions ∧
    changeCardBackground^[6] "#020617" = "#020617" :=
  ⟨by decide, changeCardBackground_cycle.2 "#020617" (by decide)⟩

/-- C7: formatAddress maps an undefined or empty address to Not connected,
and any non-empty address to its first six characters, then an ellipsis,
then its last four characters. -/
theorem formatAddress_spec :
    formatAddress none = "Not connected" ∧
    formatAddress (some "") = "Not connected" ∧
    ∀ a : String, a ≠ "" →
      formatAddress (some a) =
        String.mk (a.data.take 6) ++ "..." ++ String.mk (a.data.rtake 4) := by
  refine ⟨rfl, rfl, ?_⟩
  intro a h
  have hfa : formatAddress (some a) =
      if a = "" then "Not connected"
      else a.take 6 ++ "..." ++ a.drop (a.length - 4) := rfl
  rw [hfa, if_neg h, String.take_eq, String.drop_eq, List.rtake]
  rfl

/-- Witness for C7 at a concrete address. -/
theorem formatAddress_spec_witness :
    formatAddress (some "0x1234567890abcdef") =
      String.mk ("0x1234567890abcdef".data.take 6) ++ "..." ++
        String.mk ("0x1234567890abcdef".data.rtake 4) :=
  formatAddress_spec.2.2 "0x1234567890abcdef" (by decide)

/-- C8: after a successful casts fetch, updateUserAfterCasts sets the
reactionsCount of the stored user to the sum over the processed casts of
likes plus recasts, regardless of the previously stored value. -/
theorem reactionsCount_eq_sum (resp : CastsApiResponse) (u : DashboardUser) :
    ∃ u', updateUserAfterCasts resp (some u) = some u' ∧
      u'.reactionsCount =
        some (((processCasts resp).map fun c => c.likes + c.recasts).sum) := by
  refine ⟨_, rfl, ?_⟩
  simp [updateUserAfterCasts, foldl_reactions_eq_sum]

/-- C9: the Recent Activity list renders exactly one of three states driven
by recentCasts: the loading item when it is undefined, one item per cast
keyed by its hash when it is non-empty, and the two placeholder items when
it is empty. -/
theorem recentActivityView_trichotomy (rc : Option (List RecentCast)) :
    (rc = none → recentActivityView rc = ActivityView.loadingItem) ∧
    (∀ l, rc = some l → l ≠ [] →
      recentActivityView rc = ActivityView.castItems (l.map RecentCast.hash)) ∧
    (rc = some [] → recentActivityView rc = ActivityView.placeholderItems) := by
  rcases rc with _ | (_ | ⟨x, xs⟩) <;>
  simp [recentActivityView]

/-- Witness for C9 at the empty cast list, which renders the
placeholders. -/
theorem recentActivityView_trichotomy_witness :
    recentActivityView (some []) = ActivityView.placeholderItems :=
  (recentActivityView_trichotomy (some [])).2.2 rfl

/-- C10: while sharing is true, handleShare returns at once with the state
unchanged and no upload, compose or alert effect, and the share button is
disabled. -/
theorem handleShare_guard (env : ShareEnv) (s : AppState)
    (h : s.sharing = true) :
    handleShare env s = (s, []) ∧ shareButtonDisabled s.sharing = true := by
  unfold handleShare shareButtonDisabled
  rw [h]
  simp

/-- Witness for C10 at a state with a share already in progress. -/
theorem handleShare_guard_witness :
    handleShare shareEnvIdle appStateSharing = (appStateSharing, []) ∧
    shareButtonDisabled appStateSharing.sharing = true :=
  handleShare_guard shareEnvIdle appStateSharing rfl

end FarcasterID
